import Mathlib

/-!
Verification of the `dracon` key-value storage engine (Bitcask-style log-
structured store) against its natural-language specification.

The definitions below are a shallow embedding of the Rust sources under
`src/kv/src/`:
* `Entry`, `EntryType`, `EntryPos` — `src/kv/src/entry/mod.rs`
* `DataFile`, `DataFileConfig`     — `src/kv/src/entry/data_file.rs`
* `ErrCode`                        — `src/kv/src/err.rs`
* `Engine` with `put` / `get` / `append_entry` — `src/kv/src/db.rs`

Bytes are modelled as `List Nat`; Rust's `as u8` casts appear as `% 256`.
Error messages (the `msg : String` field of `Err`) carry no behavioural
content and are elided: errors are the `ErrCode` alone.  The operating
system's file state is carried explicitly in the engine state: since every
`DataFile::new` hands the same path — the configured data directory — to
`FileIo::new` (data_file.rs line 22), all segment handles alias ONE shared
backing file, carried as a single byte list together with a `durable`
watermark recording how many of its bytes have been flushed (`sync_all`).
Every definition is executable.
-/

namespace Dracon

/-- A byte string.  Elements originate from Rust `u8` values. -/
abbrev Bytes := List Nat

/-- Error codes of `src/kv/src/err.rs` (`enum ErrCode`).  The accompanying
human-readable `msg` strings are elided. -/
inductive ErrCode where
  | AcquireReadLockFailed
  | AcquireWriteLockFailed
  | EmptyKeyError
  | KeyNotFoundError
  | IndexUpdateFailed
  | OpenDataFileFailed
  | ReadDataFileFailed
  | SyncDataFileFailed
  | WriteDataFileFailed
deriving DecidableEq

/-- `EntryType` of `src/kv/src/entry/mod.rs`: `Normal = 1`, `Deleted = 2`. -/
inductive EntryType where
  | Normal
  | Deleted
deriving DecidableEq

/-- The discriminant value of the Rust enum, as produced by `as u8`. -/
def EntryType.toByte : EntryType → Nat
  | .Normal => 1
  | .Deleted => 2

/-- `Entry` of `src/kv/src/entry/mod.rs`: a key, a value and a kind tag. -/
structure Entry where
  key : Bytes
  val : Bytes
  typ : EntryType
deriving DecidableEq

/-- `EntryPos` of `src/kv/src/entry/mod.rs`: segment id plus byte offset. -/
structure EntryPos where
  file_id : Nat
  offset : Nat
deriving DecidableEq

/-- `Entry::encode` (entry/mod.rs lines 42-50): push `key.len() as u8`,
push `val.len() as u8`, extend with the key bytes, extend with the value
bytes, push the kind tag.  The `as u8` casts truncate the lengths modulo
256 while the full byte strings are appended. -/
def Entry.encode (e : Entry) : Bytes :=
  (e.key.length % 256) :: (e.val.length % 256) :: (e.key ++ e.val ++ [e.typ.toByte])

/-- `Entry::decode` (entry/mod.rs lines 52-63).  The Rust function returns
a bare `Entry` and panics on malformed input: indexing `encoded[0]`,
`encoded[1]`, the two slices, or the tag byte out of bounds panics, and an
unrecognized tag hits `panic!("Invalid entry type")`.  `none` here models
the panic outcome (abnormal termination); `some` is the returned entry.
The single length guard `key_len + val_len < rest.length` is exactly the
condition under which every indexing step of the Rust code is in bounds. -/
def Entry.decode (encoded : Bytes) : Option Entry :=
  match encoded with
  | key_len :: val_len :: rest =>
    if key_len + val_len < rest.length then
      match rest[key_len + val_len]? with
      | some 1 => some ⟨rest.take key_len, (rest.drop key_len).take val_len, EntryType.Normal⟩
      | some 2 => some ⟨rest.take key_len, (rest.drop key_len).take val_len, EntryType.Deleted⟩
      | _ => none
    else none
  | _ => none

/-- Decoding inverts encoding whenever both lengths fit in one byte. -/
theorem decode_encode (key val : Bytes) (typ : EntryType)
    (hk : key.length ≤ 255) (hv : val.length ≤ 255) :
    Entry.decode (Entry.encode ⟨key, val, typ⟩) = some ⟨key, val, typ⟩ := by
  have hk' : key.length % 256 = key.length := Nat.mod_eq_of_lt (by omega)
  have hv' : val.length % 256 = val.length := Nat.mod_eq_of_lt (by omega)
  have hlen : key.length + val.length < (key ++ (val ++ [typ.toByte])).length := by
    simp [List.length_append]
  have htag : (key ++ (val ++ [typ.toByte]))[key.length + val.length]? = some typ.toByte := by
    rw [List.getElem?_append_right (by omega)]
    rw [Nat.add_sub_cancel_left]
    rw [List.getElem?_append_right (by omega)]
    simp
  have htake : (key ++ (val ++ [typ.toByte])).take key.length = key :=
    List.take_left key (val ++ [typ.toByte])
  have hdrop : (key ++ (val ++ [typ.toByte])).drop key.length = val ++ [typ.toByte] :=
    List.drop_left key (val ++ [typ.toByte])
  have htakeval : (val ++ [typ.toByte]).take val.length = val :=
    List.take_left val [typ.toByte]
  simp only [Entry.encode, Entry.decode, hk', hv', List.append_assoc]
  rw [if_pos hlen, htag]
  cases typ <;> simp [EntryType.toByte, htake, hdrop, htakeval]

/-- C3: For every key and value whose lengths lie within the representable
length range of the wire format's fixed-width one-byte length fields
(at most 255), decoding the encoding of a Normal record yields back exactly
the original key, the original value, and the Normal kind. -/
theorem C3_roundtrip (key val : Bytes)
    (hk : key.length ≤ 255) (hv : val.length ≤ 255) :
    Entry.decode (Entry.encode ⟨key, val, EntryType.Normal⟩)
      = some ⟨key, val, EntryType.Normal⟩ :=
  decode_encode key val EntryType.Normal hk hv

/-- Witness for C3 at a concrete key and value. -/
theorem C3_roundtrip_witness :
    Entry.decode (Entry.encode ⟨[1, 2], [3], EntryType.Normal⟩)
      = some ⟨[1, 2], [3], EntryType.Normal⟩ :=
  C3_roundtrip [1, 2] [3] (by decide) (by decide)

/-- C4 counterexample: on the three-byte buffer `[0, 0, 3]` — declared key
and value lengths 0, kind tag 3 — the Rust decoder executes
`panic!("Invalid entry type")` (modelled as `none`): it terminates
abnormally instead of returning a record or failing with a `Decode` error.
Indeed `ErrCode` (err.rs) has no `Decode` variant and `Entry::decode`
returns a bare `Entry`, so no error-returning path exists at all. -/
theorem C4_counterexample : Entry.decode [0, 0, 3] = none := rfl

/-- C4 (amended): decoding returns a record exactly when the buffer holds
the two declared length bytes, is at least as long as those lengths imply
(`kl + vl + 3` bytes), and the kind tag byte after the declared key and
value is the recognized value 1 or 2; on every other input it terminates
abnormally (Rust panic, modelled as `none`) rather than failing with a
`Decode` error, since no such error path exists in the code. -/
theorem C4_decode_success_iff (encoded : Bytes) :
    (∃ en, Entry.decode encoded = some en) ↔
    (∃ kl vl, encoded[0]? = some kl ∧ encoded[1]? = some vl ∧
      kl + vl + 3 ≤ encoded.length ∧
      (encoded[2 + kl + vl]? = some 1 ∨ encoded[2 + kl + vl]? = some 2)) := by
  match encoded with
  | [] => simp [Entry.decode]
  | [a] => simp [Entry.decode]
  | kl :: vl :: rest =>
    simp only [Entry.decode, List.getElem?_cons_zero, List.getElem?_cons_succ,
      List.length_cons, Option.some.injEq]
    constructor
    · rintro ⟨en, hen⟩
      split at hen
      · refine ⟨kl, vl, rfl, rfl, by omega, ?_⟩
        have : (2 + kl + vl) - 1 - 1 = kl + vl := by omega
        rw [show (2 + kl + vl) = ((kl + vl) + 1) + 1 by omega]
        simp only [List.getElem?_cons_succ]
        split at hen
        · left; assumption
        · right; assumption
        · exact absurd hen (by simp)
      · exact absurd hen (by simp)
    · rintro ⟨kl', vl', rfl, rfl, hle, htag⟩
      rw [show (2 + kl + vl) = ((kl + vl) + 1) + 1 by omega] at htag
      simp only [List.getElem?_cons_succ] at htag
      rw [if_pos (by omega)]
      rcases htag with h | h <;> rw [h] <;> exact ⟨_, rfl⟩

/-- C10: when the key or the value is longer than 255 bytes, `encode` still
returns a buffer: each length-prefix byte holds the true length reduced
modulo 256 (hence fits in a byte) while the full key and value bytes are
appended, so at least one declared length differs from the true length of
the bytes that follow. -/
theorem C10_encode_truncates (key val : Bytes) (typ : EntryType)
    (h : 255 < key.length ∨ 255 < val.length) :
    Entry.encode ⟨key, val, typ⟩
        = (key.length % 256) :: (val.length % 256) :: (key ++ val ++ [typ.toByte]) ∧
      key.length % 256 < 256 ∧ val.length % 256 < 256 ∧
      ¬(key.length % 256 = key.length ∧ val.length % 256 = val.length) := by
  refine ⟨rfl, Nat.mod_lt _ (by omega), Nat.mod_lt _ (by omega), ?_⟩
  rintro ⟨hkey, hval⟩
  rcases h with h | h
  · have := Nat.mod_lt key.length (show 0 < 256 by omega)
    omega
  · have := Nat.mod_lt val.length (show 0 < 256 by omega)
    omega

/-- Witness for C10 at a 256-byte key. -/
theorem C10_encode_truncates_witness :
    Entry.encode ⟨List.replicate 256 7, [9], EntryType.Normal⟩
        = ((List.replicate 256 7).length % 256) :: ([9].length % 256)
            :: (List.replicate 256 7 ++ [9] ++ [EntryType.Normal.toByte]) ∧
      (List.replicate 256 7).length % 256 < 256 ∧ ([9] : Bytes).length % 256 < 256 ∧
      ¬((List.replicate 256 7).length % 256 = (List.replicate 256 7).length ∧
        ([9] : Bytes).length % 256 = ([9] : Bytes).length) :=
  C10_encode_truncates (List.replicate 256 7) [9] EntryType.Normal
    (Or.inl (by rw [List.length_replicate]; omega))

/-- `DataFile` of `src/kv/src/entry/data_file.rs`: an immutable segment id
and the handle's write cursor (`offset`).  The file bytes themselves live
in the operating system and are carried in the `Engine` state (`Engine.fs`)
keyed by segment id. -/
structure DataFile where
  id : Nat
  offset : Nat
deriving DecidableEq

/-- `DataFile::new` (data_file.rs lines 21-33): a fresh handle on the
segment with the given id; the initial write cursor is 0. -/
def DataFile.new (id : Nat) : DataFile := ⟨id, 0⟩

set_option linter.unusedVariables false in
/-- Backing-file path opened by `DataFile::new(path, id)`.  From the
source (data_file.rs line 22): the call `FileIo::new(path)` forwards only
`path` — the configured data directory — as the file name; the segment
`id` does not enter the opened path at all. -/
def dataFileBackingPath (data_path_dir : Bytes) (id : Nat) : Bytes :=
  data_path_dir

/-- `DataFile::write` (data_file.rs lines 47-57), parametrized by the
outcome `res` the byte channel (`io_manager.write`) reports for the
attempted write: on `Ok(size)` the cursor advances by exactly `size` and
`Ok(size)` is returned; on `Err` the error is returned and the handle is
untouched. -/
def DataFile.writeWith (f : DataFile) (res : Except ErrCode Nat) :
    Except ErrCode Nat × DataFile :=
  match res with
  | .ok size => (.ok size, { f with offset := f.offset + size })
  | .error e => (.error e, f)

set_option linter.unusedVariables false in
/-- Modelled from the spec: `DataFile::read` is called by `Engine::get`
(db.rs lines 139 and 154) but the method itself is absent from the
sources; per the spec the read path "reads the raw bytes at that offset"
(`readAt(offset, ...) -> bytes`), here taken to the end of the file — the
decoder ignores bytes past the record.  Because every handle's `FileIo`
opened the same path (data_file.rs line 22), the bytes come from the one
shared backing file at the absolute offset, whichever handle `f` is used. -/
def DataFile.read (file : Bytes) (f : DataFile) (offset : Nat) : Bytes :=
  file.drop offset

/-- `DataFileConfig` of `src/kv/src/entry/data_file.rs`. -/
structure DataFileConfig where
  data_path_dir : Bytes
  data_file_size : Nat
  write_sync_strategy : Bool

/-- `Engine` of `src/kv/src/db.rs`, together with the operating-system
facts the Rust code keeps outside the process.  Because every
`DataFile::new` forwards only the configured data directory path to
`FileIo::new` (data_file.rs line 22), every segment handle opens the very
same path: there is exactly ONE shared backing file.  `file` is the byte
content of that one file and `durable` the count of its bytes flushed to
durable storage (`sync_all`).  (In the other possible environment the
shared path — a real directory — cannot be opened in create+append mode
at all and every engine operation dies at `OpenDataFileFailed`; this
embedding models the environment where the opens succeed and alias, which
is the one in which the engine operates at all.  The path bug itself is
the subject of C5.)  The index (`indices`) and the sealed-segment registry
(`older_data_files`) are maps; the pure embedding has no lock poisoning,
so lock acquisition always succeeds. -/
structure Engine where
  config : DataFileConfig
  active : DataFile
  older : Nat → Option DataFile
  indices : Bytes → Option EntryPos
  file : Bytes
  durable : Nat

/-- `DataFile::sync` via `FileIo::sync` (`sync_all`): every byte of the
(single, shared) backing file becomes durable.  All handles alias the
same path, so which handle syncs is immaterial. -/
def Engine.sync (e : Engine) : Engine :=
  { e with durable := e.file.length }

/-- `DataFile::write` on the active handle in the happy path: the OS
write reports the full byte count, the bytes land at the current end of
the shared backing file (append mode always writes at end-of-file), and
the handle's cursor advances accordingly. -/
def Engine.writeActive (e : Engine) (data : Bytes) : Engine :=
  { e with
      file := e.file ++ data,
      active := (e.active.writeWith (.ok data.length)).2 }

/-- The rotation block of `Engine::append_entry` (db.rs lines 70-88), in
source order: (1) sync the active file; (2) file a handle on the same id
into the sealed registry (the source inserts a fresh `DataFile::new(path,
id)`, cursor 0); (3) install a new active handle with id + 1 and cursor 0.
Both `DataFile::new` calls open the shared path again; in the modelled
environment they succeed (their `Result` error paths fire only on OS
failures) and alias the same file. -/
def Engine.rotate (e : Engine) : Engine :=
  let id := e.active.id
  let e1 := e.sync
  { e1 with
      older := fun j => if j = id then some (DataFile.new id) else e1.older j,
      active := DataFile.new (id + 1) }

/-- `Engine::append_entry` (db.rs lines 55-104): encode the entry; rotate
first if the cursor plus the encoded length would exceed the configured
maximum file size; re-read the write offset (the active file may have
changed); append; sync if the write-sync strategy demands it; return the
position `{file_id, offset}` of the appended record. -/
def Engine.append_entry (e : Engine) (entry : Entry) :
    Except ErrCode EntryPos × Engine :=
  let encoded := Entry.encode entry
  let e1 := if e.config.data_file_size < e.active.offset + encoded.length
            then e.rotate else e
  let write_offset := e1.active.offset
  let e2 := e1.writeActive encoded
  let e3 := if e2.config.write_sync_strategy then e2.sync else e2
  (.ok ⟨e3.active.id, write_offset⟩, e3)

/-- `Engine::put` (db.rs lines 23-52): reject an empty key with
`EmptyKeyError`; append a Normal entry; record the returned position in
the index (in the pure embedding the index lock cannot be poisoned, so
`Indexer::put` succeeds and the `IndexUpdateFailed` branch is dead). -/
def Engine.put (e : Engine) (key value : Bytes) :
    Except ErrCode Unit × Engine :=
  if key = [] then (.error .EmptyKeyError, e)
  else
    match e.append_entry ⟨key, value, EntryType.Normal⟩ with
    | (.ok pos, e') =>
        (.ok (), { e' with
          indices := fun k => if k = key then some pos else e'.indices k })
    | (.error c, e') => (.error c, e')

/-- Outcome of `Engine::get`: a returned entry, a returned error code, or
abnormal termination (the panic inside `Entry::decode`). -/
inductive GetResult where
  | found (e : Entry)
  | failed (c : ErrCode)
  | panicked
deriving DecidableEq

/-- `Engine::get` (db.rs lines 107-158): reject an empty key; resolve the
key through the index (`KeyNotFoundError` if absent); read from the active
file when the position's file id matches it, otherwise from the sealed
registry (`ReadDataFileFailed` with "File with id not found" when the id
is not registered); decode the bytes read at the position's offset. -/
def Engine.get (e : Engine) (key : Bytes) : GetResult :=
  if key = [] then .failed .EmptyKeyError
  else
    match e.indices key with
    | none => .failed .KeyNotFoundError
    | some pos =>
      if e.active.id = pos.file_id then
        match Entry.decode (DataFile.read e.file e.active pos.offset) with
        | some en => .found en
        | none => .panicked
      else
        match e.older pos.file_id with
        | none => .failed .ReadDataFileFailed
        | some f =>
          match Entry.decode (DataFile.read e.file f pos.offset) with
          | some en => .found en
          | none => .panicked

/-- The alignment property the engine starts with and keeps as long as no
rotation occurs: the active handle's cursor equals the length of the
shared backing file (the spec's §4.2 invariant, which the source only
actually maintains before the first rotation — rotation resets the cursor
to 0 while the shared file keeps its content, the C5 path bug). -/
def EngineAligned (e : Engine) : Prop :=
  e.active.offset = e.file.length

/-- A freshly constructed engine: empty backing file, active segment 0 at
cursor 0, nothing sealed, empty index, buffered writes, 1000000-byte
segment budget. -/
def initEngine : Engine where
  config := ⟨[], 1000000, false⟩
  active := DataFile.new 0
  older := fun _ => none
  indices := fun _ => none
  file := []
  durable := 0

/-- A fresh engine with a 6-byte segment budget: a first 5-byte record
fits, a second 5-byte record triggers rotation. -/
def smallEngine : Engine where
  config := ⟨[], 6, false⟩
  active := DataFile.new 0
  older := fun _ => none
  indices := fun _ => none
  file := []
  durable := 0

@[simp] theorem sync_file (e : Engine) : e.sync.file = e.file := rfl

@[simp] theorem sync_active (e : Engine) : e.sync.active = e.active := rfl

@[simp] theorem sync_older (e : Engine) : e.sync.older = e.older := rfl

@[simp] theorem sync_indices (e : Engine) : e.sync.indices = e.indices := rfl

@[simp] theorem sync_config (e : Engine) : e.sync.config = e.config := rfl

@[simp] theorem sync_durable (e : Engine) : e.sync.durable = e.file.length := rfl

@[simp] theorem writeActive_file (e : Engine) (d : Bytes) :
    (e.writeActive d).file = e.file ++ d := rfl

@[simp] theorem writeActive_active (e : Engine) (d : Bytes) :
    (e.writeActive d).active = ⟨e.active.id, e.active.offset + d.length⟩ := rfl

@[simp] theorem writeActive_older (e : Engine) (d : Bytes) :
    (e.writeActive d).older = e.older := rfl

@[simp] theorem writeActive_indices (e : Engine) (d : Bytes) :
    (e.writeActive d).indices = e.indices := rfl

@[simp] theorem writeActive_config (e : Engine) (d : Bytes) :
    (e.writeActive d).config = e.config := rfl

@[simp] theorem writeActive_durable (e : Engine) (d : Bytes) :
    (e.writeActive d).durable = e.durable := rfl

@[simp] theorem rotate_active (e : Engine) :
    e.rotate.active = DataFile.new (e.active.id + 1) := rfl

@[simp] theorem rotate_file (e : Engine) : e.rotate.file = e.file := rfl

@[simp] theorem rotate_older (e : Engine) (j : Nat) :
    e.rotate.older j
      = if j = e.active.id then some (DataFile.new e.active.id) else e.older j := rfl

@[simp] theorem rotate_indices (e : Engine) : e.rotate.indices = e.indices := rfl

@[simp] theorem rotate_config (e : Engine) : e.rotate.config = e.config := rfl

@[simp] theorem rotate_durable (e : Engine) :
    e.rotate.durable = e.file.length := rfl

@[simp] theorem DataFile.new_id (i : Nat) : (DataFile.new i).id = i := rfl

@[simp] theorem DataFile.new_offset (i : Nat) : (DataFile.new i).offset = 0 := rfl

@[simp] theorem ite_sync_file (b : Bool) (e : Engine) :
    (if b = true then e.sync else e).file = e.file := by cases b <;> rfl

@[simp] theorem ite_sync_active (b : Bool) (e : Engine) :
    (if b = true then e.sync else e).active = e.active := by cases b <;> rfl

@[simp] theorem ite_sync_older (b : Bool) (e : Engine) :
    (if b = true then e.sync else e).older = e.older := by cases b <;> rfl

@[simp] theorem ite_sync_indices (b : Bool) (e : Engine) :
    (if b = true then e.sync else e).indices = e.indices := by cases b <;> rfl

@[simp] theorem ite_sync_config (b : Bool) (e : Engine) :
    (if b = true then e.sync else e).config = e.config := by cases b <;> rfl

/-- `append_entry` in full when rotation does not fire: the record is
appended at the end of the shared file, the cursor advances, the file is
flushed when the strategy demands it, and the returned pointer carries
the active id and the pre-append cursor. -/
theorem append_entry_nonrot (e : Engine) (ent : Entry)
    (hnr : ¬ e.config.data_file_size
        < e.active.offset + (Entry.encode ent).length) :
    e.append_entry ent
      = (Except.ok ⟨e.active.id, e.active.offset⟩,
         { e with
            active := ⟨e.active.id,
              e.active.offset + (Entry.encode ent).length⟩,
            file := e.file ++ Entry.encode ent,
            durable := if e.config.write_sync_strategy = true
              then (e.file ++ Entry.encode ent).length else e.durable }) := by
  cases hb : e.config.write_sync_strategy <;>
    simp [Engine.append_entry, if_neg hnr, Engine.writeActive, Engine.sync,
      DataFile.writeWith, hb]

/-- `append_entry` in full when rotation fires: the pre-rotation file
content is flushed, a fresh handle on the old id is filed into the sealed
registry, the active handle becomes id + 1 with cursor 0, and the record
is then appended — through the new handle, its pointer saying offset 0 —
at the current END of the single shared backing file, which every handle
aliases (data_file.rs line 22). -/
theorem append_entry_rot (e : Engine) (ent : Entry)
    (hrot : e.config.data_file_size
        < e.active.offset + (Entry.encode ent).length) :
    e.append_entry ent
      = (Except.ok ⟨e.active.id + 1, 0⟩,
         { e with
            active := ⟨e.active.id + 1, (Entry.encode ent).length⟩,
            older := (fun j =>
              if j = e.active.id then some (DataFile.new e.active.id)
              else e.older j),
            file := e.file ++ Entry.encode ent,
            durable := if e.config.write_sync_strategy = true
              then (e.file ++ Entry.encode ent).length
              else e.file.length }) := by
  cases hb : e.config.write_sync_strategy <;>
    simp [Engine.append_entry, if_pos hrot, Engine.rotate, Engine.sync,
      Engine.writeActive, DataFile.writeWith, DataFile.new, hb]

/-- A non-rotating `put` in full: record appended at the end of the
shared file, cursor advanced, the key mapped to the pre-append cursor as
offset, every other key untouched. -/
theorem put_nonrot (e : Engine) (key value : Bytes) (hk : key ≠ [])
    (hnr : ¬ e.config.data_file_size
        < e.active.offset
          + (Entry.encode ⟨key, value, EntryType.Normal⟩).length) :
    e.put key value
      = (Except.ok (),
         { e with
            active := ⟨e.active.id, e.active.offset
              + (Entry.encode ⟨key, value, EntryType.Normal⟩).length⟩,
            file := e.file ++ Entry.encode ⟨key, value, EntryType.Normal⟩,
            durable := if e.config.write_sync_strategy = true
              then (e.file
                ++ Entry.encode ⟨key, value, EntryType.Normal⟩).length
              else e.durable,
            indices := (fun k =>
              if k = key then some (EntryPos.mk e.active.id e.active.offset)
              else e.indices k) }) := by
  simp only [Engine.put, if_neg hk,
    append_entry_nonrot e ⟨key, value, EntryType.Normal⟩ hnr]

/-- Reading back the key straight after a non-rotating `put` from a
cursor-aligned state returns exactly the entry written (key and value
lengths within the one-byte range). -/
theorem get_after_put (e : Engine) (key value : Bytes)
    (hal : EngineAligned e) (hk : key ≠ [])
    (hkl : key.length ≤ 255) (hvl : value.length ≤ 255)
    (hnr : ¬ e.config.data_file_size
        < e.active.offset
          + (Entry.encode ⟨key, value, EntryType.Normal⟩).length) :
    ((e.put key value).2).get key
      = GetResult.found ⟨key, value, EntryType.Normal⟩ := by
  have hal' : e.active.offset = e.file.length := hal
  have hread : (e.file ++ Entry.encode ⟨key, value, EntryType.Normal⟩).drop
      e.active.offset = Entry.encode ⟨key, value, EntryType.Normal⟩ := by
    rw [hal']
    exact List.drop_left _ _
  rw [put_nonrot e key value hk hnr]
  simp only [Engine.get, if_neg hk, eq_self_iff_true, if_true, DataFile.read,
    hread, decode_encode key value EntryType.Normal hkl hvl]

set_option maxRecDepth 40000 in
/-- C1 counterexample: two failures of `put; get` at concrete inputs.
(1) From a fresh engine, `put` of a 300-byte key with value `[7]` then
`get` of that key panics: the one-byte length field declares the key
length as `300 % 256 = 44`, so the decoder reads a key byte 0 as the tag
and hits `panic!("Invalid entry type")`.  (2) From a fresh engine with a
6-byte budget, after one 5-byte put, a put that triggers rotation
followed by `get` of its key does not return the value just written:
every segment handle opens the same path (data_file.rs line 22), so the
record lands at the end of the one shared backing file while its pointer
says offset 0, and `get` decodes the first record's bytes instead. -/
theorem C1_counterexample :
    (((initEngine.put (List.replicate 300 0) [7]).2).get (List.replicate 300 0)
        = GetResult.panicked) ∧
    ((((smallEngine.put [1] [2]).2).put [3] [4]).2).get [3]
        ≠ GetResult.found ⟨[3], [4], EntryType.Normal⟩ := by
  constructor
  · decide
  · decide

/-- C1 (amended): for every non-empty key and value of at most 255 bytes
each, from any engine state whose active cursor equals the shared backing
file's length (as holds before any rotation has occurred) and for which
the put does not trigger segment rotation, `put(k, v)` followed by
`get(k)` returns a record whose value is exactly `v` and whose kind is
Normal. -/
theorem C1_put_then_get (e : Engine) (key value : Bytes)
    (hal : EngineAligned e) (hk : key ≠ [])
    (hkl : key.length ≤ 255) (hvl : value.length ≤ 255)
    (hnr : ¬ e.config.data_file_size
        < e.active.offset
          + (Entry.encode ⟨key, value, EntryType.Normal⟩).length) :
    ((e.put key value).2).get key
      = GetResult.found ⟨key, value, EntryType.Normal⟩ :=
  get_after_put e key value hal hk hkl hvl hnr

/-- Witness for C1 on a fresh engine with key `[1]` and value `[2]`. -/
theorem C1_put_then_get_witness :
    ((initEngine.put [1] [2]).2).get [1]
      = GetResult.found ⟨[1], [2], EntryType.Normal⟩ :=
  C1_put_then_get initEngine [1] [2] rfl (by decide) (by decide) (by decide)
    (by decide)

/-- C2 counterexample: with a 6-byte budget, the second put triggers
rotation; the index records the pointer (segment 1, offset 0) for the
triggering record, but its bytes were appended at the end (offset 5) of
the ONE shared backing file — `DataFile::new` opens the same path for
every id, so there is no fresh per-id file — and reading the pointer
therefore yields the first record, not the triggering one. -/
theorem C2_counterexample :
    ((((smallEngine.put [1] [2]).2).put [3] [4]).2).indices [3]
        = some ⟨1, 0⟩ ∧
    (((smallEngine.put [1] [2]).2).put [3] [4]).2.file
        = Entry.encode ⟨[1], [2], EntryType.Normal⟩
            ++ Entry.encode ⟨[3], [4], EntryType.Normal⟩ ∧
    ((((smallEngine.put [1] [2]).2).put [3] [4]).2).get [3]
        = GetResult.found ⟨[1], [2], EntryType.Normal⟩ := by
  refine ⟨?_, ?_, ?_⟩ <;> decide

/-- C2 (amended): during `put`, segment rotation fires exactly when the
active cursor plus the encoded record length exceeds the configured
maximum segment size.  When it fires: the backing file's pre-rotation
content is flushed to durable storage, a handle is filed by the old id
into the sealed registry, a new active handle with id = old id + 1 and
cursor 0 is installed, and the pending record is then appended through
the new handle with the returned pointer recording offset 0 — but,
every segment opening the same path, the bytes land at the current end
of the single shared backing file rather than at offset 0 of a fresh
per-id file.  When it does not fire, the active id and the registry are
unchanged and the record lands at the old cursor. -/
theorem C2_rotation (e : Engine) (ent : Entry) :
    (e.config.data_file_size < e.active.offset + (Entry.encode ent).length →
      ((e.append_entry ent).2.active.id = e.active.id + 1 ∧
       (e.append_entry ent).2.active.offset = (Entry.encode ent).length ∧
       (e.append_entry ent).2.older e.active.id
           = some (DataFile.new e.active.id) ∧
       (e.append_entry ent).2.file = e.file ++ Entry.encode ent ∧
       e.file.length ≤ (e.append_entry ent).2.durable ∧
       (e.append_entry ent).1 = Except.ok ⟨e.active.id + 1, 0⟩)) ∧
    (¬ e.config.data_file_size < e.active.offset + (Entry.encode ent).length →
      ((e.append_entry ent).2.active.id = e.active.id ∧
       (e.append_entry ent).2.older = e.older ∧
       (e.append_entry ent).2.file = e.file ++ Entry.encode ent ∧
       (e.append_entry ent).1 = Except.ok ⟨e.active.id, e.active.offset⟩)) := by
  constructor
  · intro hrot
    rw [append_entry_rot e ent hrot]
    refine ⟨rfl, rfl, by simp, rfl, ?_, rfl⟩
    show e.file.length ≤ if e.config.write_sync_strategy = true
      then (e.file ++ Entry.encode ent).length else e.file.length
    split
    · simp only [List.length_append]
      exact Nat.le_add_right _ _
    · exact Nat.le_refl _
  · intro hnr
    rw [append_entry_nonrot e ent hnr]
    exact ⟨rfl, rfl, rfl, rfl⟩

/-- A fresh engine whose maximum segment size is 0 bytes, so the very
first append triggers rotation. -/
def rotEngine : Engine where
  config := ⟨[], 0, false⟩
  active := DataFile.new 0
  older := fun _ => none
  indices := fun _ => none
  file := []
  durable := 0

/-- Witness for C2: on `rotEngine` the first append rotates from segment 0
to segment 1, seals id 0, and appends the record to the shared file with
a returned pointer of (segment 1, offset 0). -/
theorem C2_rotation_witness :
    (rotEngine.append_entry ⟨[1], [2], EntryType.Normal⟩).2.active.id = 0 + 1 ∧
    (rotEngine.append_entry ⟨[1], [2], EntryType.Normal⟩).2.active.offset
        = (Entry.encode ⟨[1], [2], EntryType.Normal⟩).length ∧
    (rotEngine.append_entry ⟨[1], [2], EntryType.Normal⟩).2.older 0
        = some (DataFile.new 0) ∧
    (rotEngine.append_entry ⟨[1], [2], EntryType.Normal⟩).2.file
        = rotEngine.file ++ Entry.encode ⟨[1], [2], EntryType.Normal⟩ ∧
    rotEngine.file.length
        ≤ (rotEngine.append_entry ⟨[1], [2], EntryType.Normal⟩).2.durable ∧
    (rotEngine.append_entry ⟨[1], [2], EntryType.Normal⟩).1
        = Except.ok ⟨0 + 1, 0⟩ :=
  (C2_rotation rotEngine ⟨[1], [2], EntryType.Normal⟩).1 (by decide)

/-- C5 (the claim describes the intended behaviour; the code has a bug):
the path of the backing file opened by `DataFile::new(dir, id)` does not
depend on the segment id at all — every segment id opens the very same
path, the configured data directory itself — while the newly opened
handle's write cursor is indeed 0. -/
theorem C5_backing_path_code_bug :
    (∀ (dir : Bytes) (i j : Nat),
        dataFileBackingPath dir i = dataFileBackingPath dir j) ∧
    (∀ i : Nat, (DataFile.new i).offset = 0) :=
  ⟨fun _ _ _ => rfl, fun _ => rfl⟩

/-- C6: a successful append advances the handle's write cursor by exactly
the byte count the channel reports written (and returns that count), and
a failed append returns the error and leaves the handle — in particular
its cursor — unchanged. -/
theorem C6_write_cursor (f : DataFile) (res : Except ErrCode Nat) :
    (∀ n, res = Except.ok n →
        ((f.writeWith res).2.offset = f.offset + n ∧
         (f.writeWith res).1 = Except.ok n)) ∧
    (∀ c, res = Except.error c → (f.writeWith res).2 = f) := by
  constructor
  · rintro n rfl
    exact ⟨rfl, rfl⟩
  · rintro c rfl
    rfl

/-- Witness for C6: a handle at cursor 5 moves to 8 on a reported 3-byte
write and stays put on a failed write. -/
theorem C6_write_cursor_witness :
    ((DataFile.mk 0 5).writeWith (Except.ok 3)).2.offset = 5 + 3 ∧
    ((DataFile.mk 0 5).writeWith (Except.error ErrCode.WriteDataFileFailed)).2
        = DataFile.mk 0 5 :=
  ⟨((C6_write_cursor (DataFile.mk 0 5) (Except.ok 3)).1 3 rfl).1,
   (C6_write_cursor (DataFile.mk 0 5)
      (Except.error ErrCode.WriteDataFileFailed)).2
     ErrCode.WriteDataFileFailed rfl⟩

set_option maxRecDepth 40000 in
/-- C7 counterexample: two failures of `put; put; get` at concrete
inputs.  (1) With key `[1]`, first value `[2]` and a 300-byte second
value, the final `get` does not return the second value: the one-byte
length field declares the value length as `300 % 256 = 44`, so the
decoder returns a record with only the first 44 value bytes and — the
byte it reads as the tag being a value byte 2 — kind Deleted.  (2) With
a 6-byte budget, the second put triggers rotation, every segment opens
the same shared path, and the final `get` returns the FIRST value. -/
theorem C7_counterexample :
    ((((initEngine.put [1] [2]).2).put [1] (List.replicate 300 2)).2).get [1]
        = GetResult.found ⟨[1], List.replicate 44 2, EntryType.Deleted⟩ ∧
    (((smallEngine.put [1] [2]).2).put [1] [9]).2.get [1]
        ≠ GetResult.found ⟨[1], [9], EntryType.Normal⟩ := by
  constructor
  · decide
  · decide

/-- C7 (amended): for every non-empty key of at most 255 bytes and values
`v1`, `v2` with `v2` at most 255 bytes, from any engine state whose
active cursor equals the shared backing file's length and for which
neither put triggers segment rotation, `put(k, v1)` then `put(k, v2)`
then `get(k)` returns `v2` with kind Normal — the second index write
replaces the key's pointer wholesale — while the first record's bytes
are still physically on the shared file at the first pointer's offset. -/
theorem C7_overwrite (e : Engine) (key v1 v2 : Bytes)
    (hal : EngineAligned e) (hk : key ≠ [])
    (hkl : key.length ≤ 255) (hv2 : v2.length ≤ 255)
    (hnr1 : ¬ e.config.data_file_size
        < e.active.offset + (Entry.encode ⟨key, v1, EntryType.Normal⟩).length)
    (hnr2 : ¬ e.config.data_file_size
        < e.active.offset + (Entry.encode ⟨key, v1, EntryType.Normal⟩).length
          + (Entry.encode ⟨key, v2, EntryType.Normal⟩).length) :
    ((((e.put key v1).2).put key v2).2).get key
        = GetResult.found ⟨key, v2, EntryType.Normal⟩ ∧
    ∀ pos1, ((e.put key v1).2).indices key = some pos1 →
      ∃ suf, ((((e.put key v1).2).put key v2).2).file.drop pos1.offset
          = Entry.encode ⟨key, v1, EntryType.Normal⟩ ++ suf := by
  have hal' : e.active.offset = e.file.length := hal
  have h1 := put_nonrot e key v1 hk hnr1
  have hal1 : EngineAligned ((e.put key v1).2) := by
    rw [h1]
    show e.active.offset + (Entry.encode ⟨key, v1, EntryType.Normal⟩).length
      = (e.file ++ Entry.encode ⟨key, v1, EntryType.Normal⟩).length
    rw [List.length_append, hal']
  have hnr2' : ¬ ((e.put key v1).2).config.data_file_size
      < ((e.put key v1).2).active.offset
        + (Entry.encode ⟨key, v2, EntryType.Normal⟩).length := by
    rw [h1]
    exact hnr2
  constructor
  · exact get_after_put ((e.put key v1).2) key v2 hal1 hk hkl hv2 hnr2'
  · intro pos1 hpos1
    rw [h1] at hpos1
    simp only [eq_self_iff_true, if_true, Option.some.injEq] at hpos1
    have h2 := put_nonrot ((e.put key v1).2) key v2 hk hnr2'
    refine ⟨Entry.encode ⟨key, v2, EntryType.Normal⟩, ?_⟩
    rw [h2, h1, ← hpos1]
    show ((e.file ++ Entry.encode ⟨key, v1, EntryType.Normal⟩)
        ++ Entry.encode ⟨key, v2, EntryType.Normal⟩).drop e.active.offset
      = Entry.encode ⟨key, v1, EntryType.Normal⟩
          ++ Entry.encode ⟨key, v2, EntryType.Normal⟩
    rw [List.append_assoc, hal']
    exact List.drop_left _ _

/-- Witness for C7 on a fresh engine: `put [1] [2]; put [1] [3]; get [1]`
returns `[3]`, and the first record is still on disk at its pointer. -/
theorem C7_overwrite_witness :
    (((initEngine.put [1] [2]).2.put [1] [3]).2).get [1]
        = GetResult.found ⟨[1], [3], EntryType.Normal⟩ ∧
    ∀ pos1, ((initEngine.put [1] [2]).2).indices [1] = some pos1 →
      ∃ suf, ((((initEngine.put [1] [2]).2.put [1] [3]).2).file).drop
            pos1.offset
          = Entry.encode ⟨[1], [2], EntryType.Normal⟩ ++ suf :=
  C7_overwrite initEngine [1] [2] [3] rfl (by decide) (by decide) (by decide)
    (by decide) (by decide)

/-- C8: in every engine state, `put` with an empty key fails with the
empty-key error (`ErrCode::EmptyKeyError`, the InputValidation kind) and
returns the state unchanged, and `get` with an empty key fails with the
same error without touching the state (`get` never mutates the engine in
this embedding, mirroring the read-only Rust path). -/
theorem C8_empty_key (e : Engine) (value : Bytes) :
    e.put [] value = (Except.error ErrCode.EmptyKeyError, e) ∧
    e.get [] = GetResult.failed ErrCode.EmptyKeyError :=
  ⟨rfl, rfl⟩

/-- C9: whenever the index resolves a non-empty key to a pointer whose
segment id is neither the active segment's id nor registered among the
sealed segments, `get` fails with the error the code dedicates to a
missing segment file (`ErrCode::ReadDataFileFailed`, message "File with
id not found" — the situation the spec's taxonomy files under Lookup). -/
theorem C9_missing_segment (e : Engine) (key : Bytes) (pos : EntryPos)
    (hk : key ≠ []) (hidx : e.indices key = some pos)
    (hact : pos.file_id ≠ e.active.id) (hold : e.older pos.file_id = none) :
    e.get key = GetResult.failed ErrCode.ReadDataFileFailed := by
  simp only [Engine.get, if_neg hk, hidx, if_neg (Ne.symm hact), hold]

/-- An engine whose index maps key `[1]` to a dangling pointer into
segment 5, which is neither active (id 0) nor sealed. -/
def c9State : Engine :=
  { initEngine with
      indices := (fun k => if k = [1] then some (EntryPos.mk 5 0) else none) }

/-- Witness for C9 at the dangling-pointer state. -/
theorem C9_missing_segment_witness :
    c9State.get [1] = GetResult.failed ErrCode.ReadDataFileFailed :=
  C9_missing_segment c9State [1] ⟨5, 0⟩ (by decide) rfl (by decide) rfl

end Dracon
